import Mathlib

/-!
Shallow embedding of the cgos-rs wrapper (`src/i2c.rs`, `src/vga.rs`).

The crate wraps an opaque native library (libcgos).  Native calls are
embedded as explicit parameters: either the raw return code of the call
(`retcode : Nat`), the value the call writes through an out-pointer, or,
where the arguments the wrapper passes matter to a claim, the whole native
function as a parameter.  Machine integers (`u32`, `usize`) are embedded as
`Nat`; the `u32` boundary `2 ^ 32` appears explicitly wherever the source
converts or truncates.  Rust `saturating_sub` on `usize` is `Nat`
subtraction.  `Result<T, E>` is `Except E T`; a Rust panic is the `none`
case of an `Option`-valued embedding.
-/

/-- Byte length of a `u32`-indexed buffer as it appears after Rust's
`as u32` cast: truncation modulo `2 ^ 32`. -/
def u32cast (n : Nat) : Nat := n % 2 ^ 32

/-! ## I2C constants

Modelled from the spec: the generated bindings module (`bindings.rs`) is not
part of the sources; the spec describes "a closed set of named classification
values" for the bus type.  The numeric values follow the vendor CGOS header;
the claims depend only on these constants being pairwise distinct. -/

def CGOS_I2C_TYPE_UNKNOWN : Nat := 0x00000000

def CGOS_I2C_TYPE_PRIMARY : Nat := 0x00010000

def CGOS_I2C_TYPE_SMB : Nat := 0x00020000

def CGOS_I2C_TYPE_DDC : Nat := 0x00030000

/-- `i2c::Error` — error type for I2c operations. -/
inductive I2cError where
  | IndexOutOfRange
  | Bus
  deriving DecidableEq, Repr

/-- `i2c::I2cKind`. -/
inductive I2cKind where
  | Unknown
  | Primary
  | Smb
  | Ddc
  | CongatecInternalUse (x : Nat)
  deriving DecidableEq, Repr

/-- `impl From<I2cKind> for u32`. -/
def I2cKind.toU32 : I2cKind → Nat
  | .Unknown => CGOS_I2C_TYPE_UNKNOWN
  | .Primary => CGOS_I2C_TYPE_PRIMARY
  | .Smb => CGOS_I2C_TYPE_SMB
  | .Ddc => CGOS_I2C_TYPE_DDC
  | .CongatecInternalUse x => x

/-- `impl From<u32> for I2cKind`: the match arms in source order, the
wildcard arm last. -/
def I2cKind.fromU32 (value : Nat) : I2cKind :=
  if value = CGOS_I2C_TYPE_UNKNOWN then .Unknown
  else if value = CGOS_I2C_TYPE_PRIMARY then .Primary
  else if value = CGOS_I2C_TYPE_SMB then .Smb
  else if value = CGOS_I2C_TYPE_DDC then .Ddc
  else .CongatecInternalUse value

/-- `i2c::I2c` — the bus handle: a device handle plus a validated index
(stored as `u32` in the source). -/
structure I2c where
  handle : Nat
  index : Nat
  deriving DecidableEq, Repr

/-- `I2c::new(handle, index)`.  `amount` stands for the live result of the
native query `Self::amount(handle) = CgosI2CCount(handle) as usize`; being a
`u32` cast to `usize` it is below `2 ^ 32`.  The source checks
`index > num_busses.saturating_sub(1)` (`Nat` subtraction saturates exactly
like `usize::saturating_sub`), then converts `index` with
`try_into().map_err(|_| Error::IndexOutOfRange)` into the `u32` field. -/
def I2c.new (amount : Nat) (handle : Nat) (index : Nat) : Except I2cError I2c :=
  if index > amount - 1 then .error .IndexOutOfRange
  else if index < 2 ^ 32 then .ok { handle := handle, index := index }
  else .error .IndexOutOfRange

/-- `I2c::i2c_type`: `raw` is the value returned by `CgosI2CType`. -/
def I2c.i2c_type (raw : Nat) : I2cKind := I2cKind.fromU32 raw

/-- `I2c::is_available`: `raw` is the value returned by
`CgosI2CIsAvailable`; the source returns `raw == 1`. -/
def I2c.is_available (raw : Nat) : Bool := raw == 1

/-- `I2c::read(bus_address, data)`.  `native` is `CgosI2CRead` as a function
of `(handle, index, bus_address, length)` returning the retcode; the length
passed is `data.len() as u32`. -/
def I2c.read (self : I2c) (bus_address : Nat) (dataLen : Nat)
    (native : Nat → Nat → Nat → Nat → Nat) : Except I2cError Unit :=
  let retcode := native self.handle self.index bus_address (u32cast dataLen)
  if retcode = 0 then .error .Bus else .ok ()

/-- `I2c::write(bus_addr, wr_data)`: same shape as `read`, length passed as
`wr_data.len() as u32`. -/
def I2c.write (self : I2c) (bus_addr : Nat) (wrDataLen : Nat)
    (native : Nat → Nat → Nat → Nat → Nat) : Except I2cError Unit :=
  let retcode := native self.handle self.index bus_addr (u32cast wrDataLen)
  if retcode = 0 then .error .Bus else .ok ()

/-- `I2c::read_register(bus_addr, reg_addr)`: `retcode` is what
`CgosI2CReadRegister` returns and `written` is the byte it stores through
`&mut data` (the local starts at 0 and the call writes through its
address). -/
def I2c.read_register (retcode : Nat) (written : Nat) : Except I2cError Nat :=
  if retcode = 0 then .error .Bus else .ok written

/-- `I2c::write_register(bus_addr, reg_addr, val)`. -/
def I2c.write_register (retcode : Nat) : Except I2cError Unit :=
  if retcode = 0 then .error .Bus else .ok ()

/-- `I2c::write_read_combined(bus_addr, wr_data, rd_data)`.  The write
length goes through `wr_len.try_into().unwrap()`, which panics when
`wr_data.len()` does not fit in `u32` — embedded as `none`.  The read length
goes through `rd_data.len() as u32`.  `native` is `CgosI2CWriteReadCombined`
as a function of `(handle, index, bus_addr, wr_len, rd_len)`. -/
def I2c.write_read_combined (self : I2c) (bus_addr : Nat)
    (wrDataLen : Nat) (rdDataLen : Nat)
    (native : Nat → Nat → Nat → Nat → Nat → Nat) :
    Option (Except I2cError Unit) :=
  if wrDataLen < 2 ^ 32 then
    let retcode :=
      native self.handle self.index bus_addr wrDataLen (u32cast rdDataLen)
    some (if retcode = 0 then .error .Bus else .ok ())
  else none

/-- `I2c::get_max_frequency`: `written` is the `u32` the native call stores
through `&mut ret`. -/
def I2c.get_max_frequency (retcode : Nat) (written : Nat) :
    Except I2cError Nat :=
  if retcode = 0 then .error .Bus else .ok written

/-- `I2c::get_frequency`. -/
def I2c.get_frequency (retcode : Nat) (written : Nat) : Except I2cError Nat :=
  if retcode = 0 then .error .Bus else .ok written

/-- `I2c::set_frequency(frequency)`. -/
def I2c.set_frequency (retcode : Nat) : Except I2cError Unit :=
  if retcode = 0 then .error .Bus else .ok ()

/-! ## VGA constants

Modelled from the spec, as for the I2C constants: values follow the vendor
CGOS header; the claims depend only on pairwise distinctness. -/

def CGOS_VGA_TYPE_UNKNOWN : Nat := 0x00000000

def CGOS_VGA_TYPE_CRT : Nat := 0x00010000

def CGOS_VGA_TYPE_LCD : Nat := 0x00020000

def CGOS_VGA_TYPE_LCD_DVO : Nat := 0x00020001

def CGOS_VGA_TYPE_LCD_LVDS : Nat := 0x00020002

def CGOS_VGA_TYPE_TV : Nat := 0x00030000

/-- `vga::VgaErr`. -/
inductive VgaErr where
  | IdxOutOfRange
  | LibcgosErr
  deriving DecidableEq, Repr

/-- `vga::VgaType`. -/
inductive VgaType where
  | Unknown
  | Crt
  | Lcd
  | LcdDv0
  | LcdLvds
  | Tv
  | Other (x : Nat)
  deriving DecidableEq, Repr

/-- `impl Into<u32> for VgaType`. -/
def VgaType.toU32 : VgaType → Nat
  | .Unknown => CGOS_VGA_TYPE_UNKNOWN
  | .Crt => CGOS_VGA_TYPE_CRT
  | .Lcd => CGOS_VGA_TYPE_LCD
  | .LcdDv0 => CGOS_VGA_TYPE_LCD_DVO
  | .LcdLvds => CGOS_VGA_TYPE_LCD_LVDS
  | .Tv => CGOS_VGA_TYPE_TV
  | .Other x => x

/-- `impl From<u32> for VgaType`: match arms in source order, wildcard
last. -/
def VgaType.fromU32 (value : Nat) : VgaType :=
  if value = CGOS_VGA_TYPE_UNKNOWN then .Unknown
  else if value = CGOS_VGA_TYPE_CRT then .Crt
  else if value = CGOS_VGA_TYPE_LCD then .Lcd
  else if value = CGOS_VGA_TYPE_LCD_DVO then .LcdDv0
  else if value = CGOS_VGA_TYPE_LCD_LVDS then .LcdLvds
  else if value = CGOS_VGA_TYPE_TV then .Tv
  else .Other value

/-- `vga::Vga` — the display handle. -/
structure Vga where
  handle : Nat
  index : Nat
  deriving DecidableEq, Repr

/-- `Vga::new(handle, index)` — same shape as `I2c::new`:
`index > num_vga.saturating_sub(1)` check, then `try_into` into `u32`. -/
def Vga.new (amount : Nat) (handle : Nat) (index : Nat) : Except VgaErr Vga :=
  if index > amount - 1 then .error .IdxOutOfRange
  else if index < 2 ^ 32 then .ok { handle := handle, index := index }
  else .error .IdxOutOfRange

/-- `Vga::get_contrast`.  The source reads
`let ret = 0u32; CgosVgaGetContrast(self.handle, self.index, ret as *mut u32)`:
the third argument is the integer value `0` cast to a pointer — the null
pointer — not `&mut ret`, so whatever contrast value the native library
holds (`deviceValue`) is never written into `ret`.  On nonzero retcode the
source returns `Ok(ret)`. -/
def Vga.get_contrast (retcode : Nat) (deviceValue : Nat) :
    Except VgaErr Nat :=
  let ret : Nat := 0
  if retcode ≠ 0 then .ok ret else .error .LibcgosErr

/-- `Vga::set_contrast(value)`. -/
def Vga.set_contrast (retcode : Nat) : Except VgaErr Unit :=
  if retcode ≠ 0 then .ok () else .error .LibcgosErr

/-- `Vga::get_contrast_enable`: same null out-pointer
(`ret as *mut u32` with `ret = 0`) as `get_contrast`; on nonzero retcode
returns `Ok(ret != 0)`. -/
def Vga.get_contrast_enable (retcode : Nat) (deviceValue : Nat) :
    Except VgaErr Bool :=
  let ret : Nat := 0
  if retcode ≠ 0 then .ok (ret != 0) else .error .LibcgosErr

/-- `Vga::set_contrast_enable(en)`. -/
def Vga.set_contrast_enable (retcode : Nat) : Except VgaErr Unit :=
  if retcode ≠ 0 then .ok () else .error .LibcgosErr

/-- `Vga::set_backlight(value)`. -/
def Vga.set_backlight (retcode : Nat) : Except VgaErr Unit :=
  if retcode ≠ 0 then .ok () else .error .LibcgosErr

/-- `Vga::get_backlight_enable`: same null out-pointer as
`get_contrast`. -/
def Vga.get_backlight_enable (retcode : Nat) (deviceValue : Nat) :
    Except VgaErr Bool :=
  let ret : Nat := 0
  if retcode ≠ 0 then .ok (ret != 0) else .error .LibcgosErr

/-- `Vga::set_backlight_enable(en)`. -/
def Vga.set_backlight_enable (retcode : Nat) : Except VgaErr Unit :=
  if retcode ≠ 0 then .ok () else .error .LibcgosErr

/-- Modelled from the spec: `bindings::CGOSVGAINFO`, the fixed-size native
record, is not under the sources; the spec and the `From<CGOSVGAINFO>`
impl in `vga.rs` list its fields — ten 32-bit (`DWORD`) fields. -/
structure CGOSVGAINFO where
  dwSize : Nat
  dwType : Nat
  dwFlags : Nat
  dwNativeWidth : Nat
  dwNativeHeight : Nat
  dwRequestedWidth : Nat
  dwRequestedHeight : Nat
  dwRequestedBpp : Nat
  dwMaxBacklight : Nat
  dwMaxContrast : Nat
  deriving DecidableEq, Repr

/-- Modelled from the spec: `size_of::<CGOSVGAINFO>()` — ten 32-bit fields,
40 bytes. -/
def sizeOfCGOSVGAINFO : Nat := 40

/-- `unsafe { zeroed() }` for `CGOSVGAINFO`. -/
def CGOSVGAINFO.zeroed : CGOSVGAINFO :=
  { dwSize := 0, dwType := 0, dwFlags := 0, dwNativeWidth := 0
    dwNativeHeight := 0, dwRequestedWidth := 0, dwRequestedHeight := 0
    dwRequestedBpp := 0, dwMaxBacklight := 0, dwMaxContrast := 0 }

/-- The record `Vga::get_info` hands to `CgosVgaGetInfo`: the zeroed
record with `info.dwSize = size_of::<CGOSVGAINFO>() as u32` stamped in. -/
def vgaInfoRequest : CGOSVGAINFO :=
  { CGOSVGAINFO.zeroed with dwSize := sizeOfCGOSVGAINFO }

/-- `vga::VgaInfo`, the public record. -/
structure VgaInfo where
  size : Nat
  vga_type : Nat
  flags : Nat
  native_width : Nat
  native_height : Nat
  requested_width : Nat
  requested_height : Nat
  requested_bpp : Nat
  max_backlight : Nat
  max_contrast : Nat
  deriving DecidableEq, Repr

/-- `impl From<CGOSVGAINFO> for VgaInfo`: field-by-field copy. -/
def VgaInfo.fromNative (info : CGOSVGAINFO) : VgaInfo :=
  { size := info.dwSize
    vga_type := info.dwType
    flags := info.dwFlags
    native_width := info.dwNativeWidth
    native_height := info.dwNativeHeight
    requested_width := info.dwRequestedWidth
    requested_height := info.dwRequestedHeight
    requested_bpp := info.dwRequestedBpp
    max_backlight := info.dwMaxBacklight
    max_contrast := info.dwMaxContrast }

/-- `Vga::get_info`.  `native` is `CgosVgaGetInfo(handle, index, &mut info)`
as a function from the record passed in to the pair (retcode, record after
the call).  The source then tests `if retcode == 0 { Ok(info.into()) } else
{ Err(VgaErr::LibcgosErr) }` — note the direction of the test, which is the
subject of one of the claims. -/
def Vga.get_info (self : Vga)
    (native : Nat → Nat → CGOSVGAINFO → Nat × CGOSVGAINFO) :
    Except VgaErr VgaInfo :=
  let info := vgaInfoRequest
  let r := native self.handle self.index info
  if r.1 = 0 then .ok (VgaInfo.fromNative r.2) else .error .LibcgosErr

/-! ## Claims -/

/-- C1: the claim says `new(handle, i)` fails with IndexOutOfRange for every
`i >= amount(handle)`, including `new(handle, 0)` when `amount(handle) = 0`.
The code violates this at `amount = 0`, `index = 0`: the bounds check is
`index > amount.saturating_sub(1)`, and `0.saturating_sub(1) = 0`, so index 0
passes the check and both constructors return `Ok` with index 0. -/
theorem c1_new_amount_zero_accepts_index_zero :
    I2c.new 0 7 0 = .ok { handle := 7, index := 0 } ∧
    Vga.new 0 7 0 = .ok { handle := 7, index := 0 } := by
  constructor <;> rfl

/-- C2: the claim says `Vga::get_info` returns `Ok` exactly when the native
`CgosVgaGetInfo` call succeeds (nonzero retcode) and `Err(LibcgosErr)`
exactly when it fails (zero retcode).  The code tests `if retcode == 0 {
Ok(..) } else { Err(..) }`, inverting the convention: on native success
(retcode 1) it reports `LibcgosErr`, and on native failure (retcode 0) it
returns `Ok`. -/
theorem c2_get_info_inverts_success_convention :
    Vga.get_info { handle := 3, index := 0 } (fun _ _ info => (1, info)) =
      .error .LibcgosErr ∧
    Vga.get_info { handle := 3, index := 0 } (fun _ _ info => (0, info)) =
      .ok (VgaInfo.fromNative vgaInfoRequest) := by
  constructor <;> rfl

/-- C3: for every device handle and every index `i < amount(handle)` (the
native count is a `u32`, so `amount < 2 ^ 32`), both constructors succeed
and the returned handle stores exactly the supplied index. -/
theorem c3_new_in_range_succeeds (amount handle i : Nat)
    (hamount : amount < 2 ^ 32) (hi : i < amount) :
    I2c.new amount handle i = .ok { handle := handle, index := i } ∧
    Vga.new amount handle i = .ok { handle := handle, index := i } := by
  have h1 : ¬ i > amount - 1 := by omega
  have h2 : i < 4294967296 := by omega
  constructor <;> simp [I2c.new, Vga.new, h1, h2]

theorem c3_witness :
    I2c.new 3 5 2 = .ok { handle := 5, index := 2 } ∧
    Vga.new 3 5 2 = .ok { handle := 5, index := 2 } :=
  c3_new_in_range_succeeds 3 5 2 (by decide) (by decide)

/-- C4: every I2C data-transfer and frequency operation returns the `Bus`
error exactly when its native call returns 0, and returns `Ok` — carrying
the value the native call wrote back, where applicable — when the native
call returns nonzero. -/
theorem c4_i2c_ops_bus_error_iff_native_zero
    (self : I2c) (addr bufLen wrLen rdLen retcode w : Nat)
    (native4 : Nat → Nat → Nat → Nat → Nat)
    (native5 : Nat → Nat → Nat → Nat → Nat → Nat)
    (hwr : wrLen < 2 ^ 32) :
    (I2c.read self addr bufLen native4 = .error .Bus ↔
        native4 self.handle self.index addr (u32cast bufLen) = 0) ∧
    (native4 self.handle self.index addr (u32cast bufLen) ≠ 0 →
        I2c.read self addr bufLen native4 = .ok ()) ∧
    (I2c.write self addr bufLen native4 = .error .Bus ↔
        native4 self.handle self.index addr (u32cast bufLen) = 0) ∧
    (native4 self.handle self.index addr (u32cast bufLen) ≠ 0 →
        I2c.write self addr bufLen native4 = .ok ()) ∧
    (I2c.write_read_combined self addr wrLen rdLen native5 =
        some (.error .Bus) ↔
        native5 self.handle self.index addr wrLen (u32cast rdLen) = 0) ∧
    (native5 self.handle self.index addr wrLen (u32cast rdLen) ≠ 0 →
        I2c.write_read_combined self addr wrLen rdLen native5 =
          some (.ok ())) ∧
    (I2c.read_register retcode w = .error .Bus ↔ retcode = 0) ∧
    (retcode ≠ 0 → I2c.read_register retcode w = .ok w) ∧
    (I2c.write_register retcode = .error .Bus ↔ retcode = 0) ∧
    (retcode ≠ 0 → I2c.write_register retcode = .ok ()) ∧
    (I2c.get_max_frequency retcode w = .error .Bus ↔ retcode = 0) ∧
    (retcode ≠ 0 → I2c.get_max_frequency retcode w = .ok w) ∧
    (I2c.get_frequency retcode w = .error .Bus ↔ retcode = 0) ∧
    (retcode ≠ 0 → I2c.get_frequency retcode w = .ok w) ∧
    (I2c.set_frequency retcode = .error .Bus ↔ retcode = 0) ∧
    (retcode ≠ 0 → I2c.set_frequency retcode = .ok ()) := by
  have hwr2 : wrLen < 4294967296 := by omega
  by_cases h4 : native4 self.handle self.index addr (u32cast bufLen) = 0 <;>
  by_cases h5 : native5 self.handle self.index addr wrLen (u32cast rdLen) = 0 <;>
  by_cases hrc : retcode = 0 <;>
  simp [I2c.read, I2c.write, I2c.write_read_combined, I2c.read_register,
    I2c.write_register, I2c.get_max_frequency, I2c.get_frequency,
    I2c.set_frequency, h4, h5, hrc, hwr2]

theorem c4_witness : I2c.set_frequency 1 = .ok () :=
  (c4_i2c_ops_bus_error_iff_native_zero { handle := 1, index := 2 } 3 4 5 6 1 9
    (fun _ _ _ _ => 1) (fun _ _ _ _ _ => 1)
    (by decide)).2.2.2.2.2.2.2.2.2.2.2.2.2.2.2 (by decide)

/-- C5: for every raw `u32` classification code outside the named constants,
conversion to the kind enumeration is total (the embedding is a total
function, so it neither fails nor panics), yields the reserved/vendor
variant carrying the code, and converting back yields the code unchanged —
for both `I2cKind` and `VgaType`. -/
theorem c5_unknown_code_round_trip (code : Nat)
    (h1 : code ≠ CGOS_I2C_TYPE_UNKNOWN) (h2 : code ≠ CGOS_I2C_TYPE_PRIMARY)
    (h3 : code ≠ CGOS_I2C_TYPE_SMB) (h4 : code ≠ CGOS_I2C_TYPE_DDC)
    (g1 : code ≠ CGOS_VGA_TYPE_UNKNOWN) (g2 : code ≠ CGOS_VGA_TYPE_CRT)
    (g3 : code ≠ CGOS_VGA_TYPE_LCD) (g4 : code ≠ CGOS_VGA_TYPE_LCD_DVO)
    (g5 : code ≠ CGOS_VGA_TYPE_LCD_LVDS) (g6 : code ≠ CGOS_VGA_TYPE_TV) :
    I2cKind.fromU32 code = .CongatecInternalUse code ∧
    (I2cKind.fromU32 code).toU32 = code ∧
    VgaType.fromU32 code = .Other code ∧
    (VgaType.fromU32 code).toU32 = code := by
  simp [I2cKind.fromU32, VgaType.fromU32, I2cKind.toU32, VgaType.toU32,
    h1, h2, h3, h4, g1, g2, g3, g4, g5, g6]

theorem c5_witness :
    I2cKind.fromU32 7 = .CongatecInternalUse 7 ∧
    (I2cKind.fromU32 7).toU32 = 7 ∧
    VgaType.fromU32 7 = .Other 7 ∧
    (VgaType.fromU32 7).toU32 = 7 :=
  c5_unknown_code_round_trip 7 (by decide) (by decide) (by decide) (by decide)
    (by decide) (by decide) (by decide) (by decide) (by decide) (by decide)

/-- C6: every known classification constant maps to exactly its named
variant, and each named variant maps back to exactly its constant, for both
`I2cKind` and `VgaType`. -/
theorem c6_known_codes_round_trip :
    I2cKind.fromU32 CGOS_I2C_TYPE_UNKNOWN = .Unknown ∧
    I2cKind.fromU32 CGOS_I2C_TYPE_PRIMARY = .Primary ∧
    I2cKind.fromU32 CGOS_I2C_TYPE_SMB = .Smb ∧
    I2cKind.fromU32 CGOS_I2C_TYPE_DDC = .Ddc ∧
    I2cKind.Unknown.toU32 = CGOS_I2C_TYPE_UNKNOWN ∧
    I2cKind.Primary.toU32 = CGOS_I2C_TYPE_PRIMARY ∧
    I2cKind.Smb.toU32 = CGOS_I2C_TYPE_SMB ∧
    I2cKind.Ddc.toU32 = CGOS_I2C_TYPE_DDC ∧
    VgaType.fromU32 CGOS_VGA_TYPE_UNKNOWN = .Unknown ∧
    VgaType.fromU32 CGOS_VGA_TYPE_CRT = .Crt ∧
    VgaType.fromU32 CGOS_VGA_TYPE_LCD = .Lcd ∧
    VgaType.fromU32 CGOS_VGA_TYPE_LCD_DVO = .LcdDv0 ∧
    VgaType.fromU32 CGOS_VGA_TYPE_LCD_LVDS = .LcdLvds ∧
    VgaType.fromU32 CGOS_VGA_TYPE_TV = .Tv ∧
    VgaType.Unknown.toU32 = CGOS_VGA_TYPE_UNKNOWN ∧
    VgaType.Crt.toU32 = CGOS_VGA_TYPE_CRT ∧
    VgaType.Lcd.toU32 = CGOS_VGA_TYPE_LCD ∧
    VgaType.LcdDv0.toU32 = CGOS_VGA_TYPE_LCD_DVO ∧
    VgaType.LcdLvds.toU32 = CGOS_VGA_TYPE_LCD_LVDS ∧
    VgaType.Tv.toU32 = CGOS_VGA_TYPE_TV := by
  decide

/-- C7: `I2c::is_available` is true exactly when the native probe returns
the sentinel 1; every other return value yields false, and the return type
`Bool` carries no error path. -/
theorem c7_is_available_iff_sentinel :
    I2c.is_available 1 = true ∧
    ∀ raw : Nat, raw ≠ 1 → I2c.is_available raw = false := by
  refine ⟨rfl, fun raw h => ?_⟩
  simp [I2c.is_available, h]

theorem c7_witness :
    I2c.is_available 1 = true ∧ I2c.is_available 5 = false :=
  ⟨c7_is_available_iff_sentinel.1, c7_is_available_iff_sentinel.2 5 (by decide)⟩

/-- C8: the record `get_info` hands to the native query has its size tag
`dwSize` set to exactly `size_of::<CGOSVGAINFO>()` and every other field
zeroed; a recording native stub receives exactly that record. -/
theorem c8_get_info_presets_size_tag :
    vgaInfoRequest.dwSize = sizeOfCGOSVGAINFO ∧
    vgaInfoRequest.dwType = 0 ∧
    vgaInfoRequest.dwFlags = 0 ∧
    vgaInfoRequest.dwNativeWidth = 0 ∧
    vgaInfoRequest.dwNativeHeight = 0 ∧
    vgaInfoRequest.dwRequestedWidth = 0 ∧
    vgaInfoRequest.dwRequestedHeight = 0 ∧
    vgaInfoRequest.dwRequestedBpp = 0 ∧
    vgaInfoRequest.dwMaxBacklight = 0 ∧
    vgaInfoRequest.dwMaxContrast = 0 ∧
    ∀ self : Vga, Vga.get_info self (fun _ _ info => (0, info)) =
      .ok (VgaInfo.fromNative vgaInfoRequest) := by
  refine ⟨rfl, rfl, rfl, rfl, rfl, rfl, rfl, rfl, rfl, rfl, fun self => rfl⟩

/-- C9: whenever the native call reports success (nonzero retcode), the VGA
getters `get_contrast`, `get_contrast_enable` and `get_backlight_enable`
return `Ok(0)`, `Ok(false)` and `Ok(false)` regardless of the value the
native library holds, because each passes the by-value zero `ret as *mut
u32` (the null pointer) instead of `&mut ret`, so the local returned is
never written. -/
theorem c9_vga_getters_return_constant_zero (retcode deviceValue : Nat)
    (h : retcode ≠ 0) :
    Vga.get_contrast retcode deviceValue = .ok 0 ∧
    Vga.get_contrast_enable retcode deviceValue = .ok false ∧
    Vga.get_backlight_enable retcode deviceValue = .ok false := by
  simp [Vga.get_contrast, Vga.get_contrast_enable, Vga.get_backlight_enable, h]

theorem c9_witness :
    Vga.get_contrast 1 42 = .ok 0 ∧
    Vga.get_contrast_enable 1 42 = .ok false ∧
    Vga.get_backlight_enable 1 42 = .ok false :=
  c9_vga_getters_return_constant_zero 1 42 (by decide)

/-- C10: `write_read_combined` panics (embedded as `none`) when the write
buffer length does not fit in `u32` — e.g. at length `2 ^ 32` — because it
unwraps `try_into`; whereas `read` and `write` truncate the length with an
`as u32` cast (behaving identically at `len` and `len % 2 ^ 32`) and never
panic, and `write_read_combined` itself returns normally whenever the write
length fits in `u32`. -/
theorem c10_write_read_combined_length_panic :
    (I2c.write_read_combined { handle := 0, index := 0 } 0 (2 ^ 32) 0
        (fun _ _ _ _ _ => 1) = none) ∧
    (∀ (self : I2c) (addr bufLen : Nat) (native : Nat → Nat → Nat → Nat → Nat),
        I2c.read self addr bufLen native =
          I2c.read self addr (bufLen % 2 ^ 32) native) ∧
    (∀ (self : I2c) (addr wrLen : Nat) (native : Nat → Nat → Nat → Nat → Nat),
        I2c.write self addr wrLen native =
          I2c.write self addr (wrLen % 2 ^ 32) native) ∧
    (∀ (self : I2c) (addr wrLen rdLen : Nat)
        (native : Nat → Nat → Nat → Nat → Nat → Nat), wrLen < 2 ^ 32 →
        (I2c.write_read_combined self addr wrLen rdLen native).isSome = true) := by
  refine ⟨by simp [I2c.write_read_combined], ?_, ?_, ?_⟩
  · intro self addr bufLen native
    simp [I2c.read, u32cast, Nat.mod_mod_of_dvd bufLen dvd_rfl]
  · intro self addr wrLen native
    simp [I2c.write, u32cast, Nat.mod_mod_of_dvd wrLen dvd_rfl]
  · intro self addr wrLen rdLen native hwr
    have hwr2 : wrLen < 4294967296 := by omega
    simp [I2c.write_read_combined, hwr2]

theorem c10_witness :
    (I2c.write_read_combined { handle := 1, index := 0 } 2 5 3
      (fun _ _ _ _ _ => 1)).isSome = true :=
  c10_write_read_combined_length_panic.2.2.2 { handle := 1, index := 0 } 2 5 3
    (fun _ _ _ _ _ => 1) (by decide)
